import Mathlib

/-!
Verification of the DataAPI C++ SDK HTTP core against its specification.

The definitions below are a shallow embedding of the SDK source:
`ClientConfig.h`, `AuthenticationProvider.h`, `BasicAuthProvider.cpp`,
`UrlUtils.cpp`, `HttpClient.cpp`, `CommonTypes.h` and
`WorkflowClient.cpp`.  C++ strings are `String` (or `List Nat` byte
lists where byte-level arithmetic matters, as in base64), `std::map` /
header lists are association lists, machine integers are `Int`/`Nat`,
and fallible operations return `Option`/`Except`.
-/

/-- Association-list lookup, the embedding of `std::map::find` (exact,
case-sensitive key comparison). -/
def listLookup {α : Type} (l : List (String × α)) (k : String) : Option α :=
  match l with
  | [] => none
  | (k', v) :: rest => if k' = k then some v else listLookup rest k

/-- Embedding of `dataapi::ClientConfig` (ClientConfig.h): the full field
set, so that frame properties of the setters can be stated. -/
structure ClientConfig where
  baseUrl : String
  timeout : Int
  enableLogging : Bool
  enableRetry : Bool
  maxRetries : Int
  retryDelay : Int
  version : String
  defaultHeaders : List (String × String)
  userAgent : String
  verifySSL : Bool
  proxyUrl : String
  connectionPoolSize : Int
deriving Repr, DecidableEq

/-- Embedding of the built-in authentication providers
(AuthenticationProvider.h) as a tagged union; used only as an opaque
reference value in the client state, the per-provider behaviour is
given by the standalone functions below. -/
inductive AuthProviderModel where
  | bearer (token : String)
  | apiKey (key headerName : String)
  | basic (username password : List Nat)
  | custom (headers : List (String × String))
deriving Repr, DecidableEq

/-- Embedding of the mutable state of `dataapi::http::HttpClient`: the
stored configuration and the auth-provider reference. -/
structure HttpClientState where
  config : ClientConfig
  authProvider : Option AuthProviderModel
deriving Repr, DecidableEq

/-- Embedding of `HttpClient::setTimeout` (HttpClient.cpp:249-251):
`config.timeout = timeoutMs;`. -/
def HttpClientState.setTimeout (s : HttpClientState) (timeoutMs : Int) : HttpClientState :=
  { s with config := { s.config with timeout := timeoutMs } }

/-- Embedding of `HttpClient::setVerifySSL` (HttpClient.cpp:253-255):
`config.verifySSL = verify;`. -/
def HttpClientState.setVerifySSL (s : HttpClientState) (verify : Bool) : HttpClientState :=
  { s with config := { s.config with verifySSL := verify } }

/-- Embedding of `HttpClient::setProxy` (HttpClient.cpp:257-259):
`config.proxyUrl = proxyUrl;`. -/
def HttpClientState.setProxy (s : HttpClientState) (proxyUrl : String) : HttpClientState :=
  { s with config := { s.config with proxyUrl := proxyUrl } }

/-- Embedding of `BearerTokenAuthProvider::getAuthHeaders`
(AuthenticationProvider.h:91-93). -/
def bearerGetAuthHeaders (token : String) : List (String × String) :=
  [("Authorization", "Bearer " ++ token)]

/-- Embedding of `BearerTokenAuthProvider::isValid`
(AuthenticationProvider.h:98-100): `!token.empty()`. -/
def bearerIsValid (token : String) : Bool :=
  !token.isEmpty

/-- Embedding of `ApiKeyAuthProvider::getAuthHeaders`
(AuthenticationProvider.h:158-160). -/
def apiKeyGetAuthHeaders (apiKey headerName : String) : List (String × String) :=
  [(headerName, apiKey)]

/-- Embedding of `ApiKeyAuthProvider::isValid`
(AuthenticationProvider.h:165-167): `!apiKey.empty() && !headerName.empty()`. -/
def apiKeyIsValid (apiKey headerName : String) : Bool :=
  !apiKey.isEmpty && !headerName.isEmpty

/-- Embedding of `BasicAuthProvider::isValid`
(AuthenticationProvider.h:230-232): `!username.empty() && !password.empty()`.
Credentials are byte lists because base64 works on bytes. -/
def basicIsValid (username password : List Nat) : Bool :=
  !username.isEmpty && !password.isEmpty

/-- Embedding of `CustomAuthProvider::getAuthHeaders`
(AuthenticationProvider.h:289-291): returns the stored map verbatim. -/
def customGetAuthHeaders (headers : List (String × String)) : List (String × String) :=
  headers

/-- Embedding of `CustomAuthProvider::isValid`
(AuthenticationProvider.h:296-298): `!headers.empty()`. -/
def customIsValid (headers : List (String × String)) : Bool :=
  !headers.isEmpty

/-- Embedding of `UrlUtils::joinPath` (UrlUtils.cpp:96-111): append `/`
to the base when it is non-empty and does not already end in `/`, strip
one leading `/` from the path, and concatenate. -/
def UrlUtils.joinPath (base path : List Char) : List Char :=
  let result := if base ≠ [] ∧ base.getLast? ≠ some '/' then base ++ ['/'] else base
  let cleanPath := if path.head? = some '/' then path.tail else path
  result ++ cleanPath

/-- The base64 alphabet table of BasicAuthProvider.cpp:9-12
(`base64_chars`). -/
def base64_chars : List Char :=
  ['A', 'B', 'C', 'D', 'E', 'F', 'G', 'H', 'I', 'J', 'K', 'L', 'M',
   'N', 'O', 'P', 'Q', 'R', 'S', 'T', 'U', 'V', 'W', 'X', 'Y', 'Z',
   'a', 'b', 'c', 'd', 'e', 'f', 'g', 'h', 'i', 'j', 'k', 'l', 'm',
   'n', 'o', 'p', 'q', 'r', 's', 't', 'u', 'v', 'w', 'x', 'y', 'z',
   '0', '1', '2', '3', '4', '5', '6', '7', '8', '9', '+', '/']

/-- Table lookup `base64_chars[i]` (indices produced by the encoder are
always below 64). -/
def b64char (n : Nat) : Char :=
  base64_chars.getD n 'A'

/-- Embedding of the inner `while (valb >= 0)` loop of `base64_encode`
(BasicAuthProvider.cpp:21-24): emit `base64_chars[(val >> valb) & 0x3F]`
and decrease `valb` by 6 while it is non-negative. -/
def b64emit (val : Nat) (valb : Int) (acc : List Char) : List Char × Int :=
  if _h : 0 ≤ valb then
    b64emit val (valb - 6) (acc ++ [b64char ((val >>> valb.toNat) % 64)])
  else
    (acc, valb)
termination_by (valb + 6).toNat
decreasing_by
  omega

/-- Embedding of one iteration of the `for (unsigned char c : input)`
loop of `base64_encode` (BasicAuthProvider.cpp:18-25):
`val = (val << 8) + c; valb += 8;` then the emit loop. -/
def b64step (st : Nat × Int × List Char) (c : Nat) : Nat × Int × List Char :=
  let val := st.1 * 256 + c
  let r := b64emit val (st.2.1 + 8) st.2.2
  (val, r.2, r.1)

/-- Embedding of the `while (encoded.size() % 4)` padding loop of
`base64_encode` (BasicAuthProvider.cpp:29-31). -/
def b64pad (l : List Char) : List Char :=
  if l.length % 4 = 0 then l else b64pad (l ++ ['='])
termination_by (4 - l.length % 4) % 4
decreasing_by
  simp only [List.length_append, List.length_cons, List.length_nil]
  omega

/-- Embedding of the tail of `base64_encode`
(BasicAuthProvider.cpp:26-32): the leftover-bits push
`if (valb > -6) encoded.push_back(base64_chars[((val << 8) >> (valb + 8)) & 0x3F])`
followed by the padding loop. -/
def b64finish (st : Nat × Int × List Char) : List Char :=
  if st.2.1 > -6 then
    b64pad (st.2.2 ++ [b64char (((st.1 <<< 8) >>> (st.2.1 + 8).toNat) % 64)])
  else
    b64pad st.2.2

/-- Embedding of `base64_encode` (BasicAuthProvider.cpp:15-33): fold the
per-byte step over the input starting from `val = 0, valb = -6`, then
flush leftover bits and pad. -/
def base64_encode (input : List Nat) : List Char :=
  b64finish (input.foldl b64step (0, -6, []))

/-- Standard chunked base64 (RFC 4648 with `=` padding), written from
the spec's words ("standard base64 alphabet with `=` padding to a
multiple of 4") as the reference for the bit-twiddling encoder. -/
def specB64 : List Nat → List Char
  | [] => []
  | [a] => [b64char (a / 4), b64char (a % 4 * 16), '=', '=']
  | [a, b] => [b64char (a / 4), b64char (a % 4 * 16 + b / 16), b64char (b % 16 * 4), '=']
  | a :: b :: c :: rest =>
    b64char (a / 4) :: b64char (a % 4 * 16 + b / 16) ::
      b64char (b % 16 * 4 + c / 64) :: b64char (c % 64) :: specB64 rest

/-- Embedding of `BasicAuthProvider::getAuthHeaders`
(BasicAuthProvider.cpp:36-40): a single Authorization header whose value
is `"Basic " + base64_encode(username + ":" + password)`; 58 is the byte
of `:`. -/
def basicGetAuthHeaders (username password : List Nat) : List (String × List Char) :=
  [("Authorization", "Basic ".toList ++ base64_encode (username ++ 58 :: password))]

theorem b64emit_neg (val : Nat) (valb : Int) (acc : List Char) (h : valb < 0) :
    b64emit val valb acc = (acc, valb) := by
  rw [b64emit]
  simp [not_le.mpr h]

theorem b64emit_2 (val : Nat) (acc : List Char) :
    b64emit val 2 acc = (acc ++ [b64char ((val >>> 2) % 64)], -4) := by
  rw [b64emit]
  norm_num
  rw [show Int.toNat 2 = 2 by decide, b64emit_neg _ _ _ (by norm_num)]

theorem b64emit_4 (val : Nat) (acc : List Char) :
    b64emit val 4 acc = (acc ++ [b64char ((val >>> 4) % 64)], -2) := by
  rw [b64emit]
  norm_num
  rw [show Int.toNat 4 = 4 by decide, b64emit_neg _ _ _ (by norm_num)]

theorem b64emit_6 (val : Nat) (acc : List Char) :
    b64emit val 6 acc = (acc ++ [b64char ((val >>> 6) % 64), b64char (val % 64)], -6) := by
  rw [b64emit]
  norm_num
  rw [show Int.toNat 6 = 6 by decide, b64emit]
  norm_num
  rw [b64emit_neg _ _ _ (by norm_num)]

theorem b64step_m6 (val c : Nat) (acc : List Char) :
    b64step (val, -6, acc) c =
      (val * 256 + c, -4, acc ++ [b64char (((val * 256 + c) >>> 2) % 64)]) := by
  simp only [b64step]
  norm_num [b64emit_2]

theorem b64step_m4 (val c : Nat) (acc : List Char) :
    b64step (val, -4, acc) c =
      (val * 256 + c, -2, acc ++ [b64char (((val * 256 + c) >>> 4) % 64)]) := by
  simp only [b64step]
  norm_num [b64emit_4]

theorem b64step_m2 (val c : Nat) (acc : List Char) :
    b64step (val, -2, acc) c =
      (val * 256 + c, -6,
        acc ++ [b64char (((val * 256 + c) >>> 6) % 64), b64char ((val * 256 + c) % 64)]) := by
  simp only [b64step]
  norm_num [b64emit_6]

theorem b64pad_done (l : List Char) (h : l.length % 4 = 0) : b64pad l = l := by
  rw [b64pad]
  simp [h]

theorem b64pad_two (l : List Char) (h : l.length % 4 = 2) : b64pad l = l ++ ['=', '='] := by
  rw [b64pad]
  rw [if_neg (by omega)]
  rw [b64pad]
  rw [if_neg (by simp; omega)]
  rw [b64pad_done _ (by simp; omega)]
  simp

theorem b64pad_three (l : List Char) (h : l.length % 4 = 3) : b64pad l = l ++ ['='] := by
  rw [b64pad]
  rw [if_neg (by omega)]
  rw [b64pad_done _ (by simp; omega)]

set_option maxRecDepth 4000 in
theorem base64_foldl_spec :
    ∀ (input : List Nat), (∀ x ∈ input, x < 256) →
      ∀ (val : Nat) (acc : List Char), acc.length % 4 = 0 →
        b64finish (input.foldl b64step (val, -6, acc)) = acc ++ specB64 input := by
  intro input
  induction input using specB64.induct with
  | case1 =>
    intro _ val acc hacc
    simp only [List.foldl_nil, b64finish, specB64]
    norm_num [b64pad_done _ hacc]
  | case2 a =>
    intro hb val acc hacc
    have ha : a < 256 := hb a (by simp)
    simp only [List.foldl_cons, List.foldl_nil, b64step_m6, b64finish, specB64]
    rw [if_pos (by norm_num), show ((-4 : Int) + 8).toNat = 4 by decide]
    have e1 : ((val * 256 + a) >>> 2) % 64 = a / 4 := by
      rw [Nat.shiftRight_eq_div_pow]
      omega
    have e2 : (((val * 256 + a) <<< 8) >>> 4) % 64 = a % 4 * 16 := by
      rw [Nat.shiftLeft_eq, Nat.shiftRight_eq_div_pow]
      norm_num
      omega
    rw [e1, e2, b64pad_two _ (by
      simp only [List.length_append, List.length_cons, List.length_nil]
      omega)]
    simp only [List.append_assoc, List.singleton_append, List.cons_append, List.nil_append]
  | case3 a b =>
    intro hb val acc hacc
    have ha : a < 256 := hb a (by simp)
    have hbb : b < 256 := hb b (by simp)
    simp only [List.foldl_cons, List.foldl_nil, b64step_m6, b64step_m4, b64finish, specB64]
    rw [if_pos (by norm_num), show ((-2 : Int) + 8).toNat = 6 by decide]
    have e1 : ((val * 256 + a) >>> 2) % 64 = a / 4 := by
      rw [Nat.shiftRight_eq_div_pow]
      omega
    have e2 : (((val * 256 + a) * 256 + b) >>> 4) % 64 = a % 4 * 16 + b / 16 := by
      rw [Nat.shiftRight_eq_div_pow]
      omega
    have e3 : ((((val * 256 + a) * 256 + b) <<< 8) >>> 6) % 64 = b % 16 * 4 := by
      rw [Nat.shiftLeft_eq, Nat.shiftRight_eq_div_pow]
      norm_num
      omega
    rw [e1, e2, e3, b64pad_three _ (by
      simp only [List.length_append, List.length_cons, List.length_nil]
      omega)]
    simp only [List.append_assoc, List.singleton_append, List.cons_append, List.nil_append]
  | case4 a b c rest ih =>
    intro hb val acc hacc
    have ha : a < 256 := hb a (by simp)
    have hbb : b < 256 := hb b (by simp)
    have hc : c < 256 := hb c (by simp)
    have hrest : ∀ x ∈ rest, x < 256 := by
      intro x hx
      exact hb x (by simp [hx])
    simp only [List.foldl_cons, b64step_m6, b64step_m4, b64step_m2]
    have e1 : ((val * 256 + a) >>> 2) % 64 = a / 4 := by
      rw [Nat.shiftRight_eq_div_pow]
      omega
    have e2 : (((val * 256 + a) * 256 + b) >>> 4) % 64 = a % 4 * 16 + b / 16 := by
      rw [Nat.shiftRight_eq_div_pow]
      omega
    have e3 : ((((val * 256 + a) * 256 + b) * 256 + c) >>> 6) % 64
        = b % 16 * 4 + c / 64 := by
      rw [Nat.shiftRight_eq_div_pow]
      omega
    have e4 : (((val * 256 + a) * 256 + b) * 256 + c) % 64 = c % 64 := by
      omega
    rw [e1, e2, e3, e4]
    have hlen : (acc ++ [b64char (a / 4), b64char (a % 4 * 16 + b / 16),
        b64char (b % 16 * 4 + c / 64), b64char (c % 64)]).length % 4 = 0 := by
      simp only [List.length_append, List.length_cons, List.length_nil]
      omega
    have step := ih hrest (((val * 256 + a) * 256 + b) * 256 + c)
      (acc ++ [b64char (a / 4), b64char (a % 4 * 16 + b / 16),
        b64char (b % 16 * 4 + c / 64), b64char (c % 64)]) hlen
    simp only [List.append_assoc, List.singleton_append, List.cons_append,
      List.nil_append] at step ⊢
    rw [step]
    simp only [specB64, List.append_assoc, List.cons_append, List.nil_append]

/-- The source's bit-accumulating encoder agrees with standard chunked
base64 on every byte string. -/
theorem base64_encode_eq_specB64 (input : List Nat) (hb : ∀ x ∈ input, x < 256) :
    base64_encode input = specB64 input := by
  have := base64_foldl_spec input hb 0 [] (by simp)
  simpa [base64_encode] using this

theorem specB64_len (l : List Nat) : (specB64 l).length % 4 = 0 := by
  induction l using specB64.induct with
  | case1 => rfl
  | case2 a => simp [specB64]
  | case3 a b => simp [specB64]
  | case4 a b c rest ih =>
    simp only [specB64, List.length_cons]
    omega

/-- ASCII alphanumeric test, the embedding of `std::isalnum` as used on
the SDK's ASCII query strings (UrlUtils.cpp:16). -/
def isUnreservedChar (c : Char) : Bool :=
  c.isAlphanum || c == '-' || c == '_' || c == '.' || c == '~'

/-- Uppercase hex digit, the embedding of
`<< std::uppercase << std::hex` with width 2 and fill '0'
(UrlUtils.cpp:10-20). -/
def hexUpper (n : Nat) : Char :=
  if n < 10 then Char.ofNat (48 + n) else Char.ofNat (55 + n)

/-- Embedding of `UrlUtils::encode` (UrlUtils.cpp:9-26): keep
`[A-Za-z0-9-_.~]`, percent-encode everything else as `%HH` with two
uppercase hex digits of the byte (`int(static_cast<unsigned char>(c))`,
hence the `% 256`). -/
def UrlUtils.encode (s : List Char) : List Char :=
  (s.map fun c =>
    if isUnreservedChar c then [c]
    else ['%', hexUpper (c.toNat % 256 / 16), hexUpper (c.toNat % 256 % 16)]).flatten

/-- Embedding of `UrlUtils::buildQueryString` (UrlUtils.cpp:49-66):
empty map gives the empty string, otherwise `&`-separated
`encode(k)=encode(v)` pairs in map order. -/
def UrlUtils.buildQueryString (params : List (String × String)) : List Char :=
  match params with
  | [] => []
  | _ =>
    List.intercalate ['&']
      (params.map fun kv => UrlUtils.encode kv.1.toList ++ '=' :: UrlUtils.encode kv.2.toList)

/-- Header map type of Types.h (`using Headers = std::map<...>`),
embedded as an association list. -/
abbrev Headers := List (String × String)

/-- Embedding of the `HttpMethod` enumeration (CommonTypes.h:24-31). -/
inductive HttpMethod where
  | GET
  | POST
  | PUT
  | DELETE
  | HEAD
  | PATCH
deriving Repr, DecidableEq

/-- Minimal JSON value model for `nlohmann::json` as used by the SDK. -/
inductive JVal where
  | jnull
  | jbool (b : Bool)
  | jint (n : Int)
  | jstr (s : String)
  | jarr (elems : List JVal)
  | jobj (fields : List (String × JVal))

/-- Embedding of `HttpRequestConfig` (CommonTypes.h:73-80).  The JSON
body is `Option JVal` with `none` standing for the null json
(`data.is_null()`). -/
structure HttpRequestConfig where
  method : HttpMethod
  url : String
  headers : Headers
  params : List (String × String)
  data : Option JVal
  timeout : Int

/-- Embedding of `HttpResponse` (HttpClient.h:17-28). -/
structure HttpResponse where
  statusCode : Int
  body : String
  headers : Headers
  errorMessage : String
deriving Repr, DecidableEq

/-- Embedding of `HttpResponse::isSuccess` (HttpClient.h:25-27). -/
def HttpResponse.isSuccess (r : HttpResponse) : Bool :=
  200 ≤ r.statusCode && r.statusCode < 300

/-- The request as handed to libcurl by `HttpClient::request`: the
composed URL, the method, the assembled `curl_slist` header lines (as
pairs, in append order) and the JSON body. -/
structure WireRequest where
  url : String
  method : HttpMethod
  headerList : Headers
  data : Option JVal

/-- Embedding of the request-building part of `HttpClient::request`
(HttpClient.cpp:127-202): the URL is the plain concatenation
`config.baseUrl + requestConfig.url` (line 128; the query-parameter map
is never consulted); the header list is the auth-provider headers (if a
provider is set), then the caller headers, then
`Content-Type: application/json` when a body is present and the caller
headers have no exact-key `Content-Type` entry (lines 180-198).  In the
source `body = data.dump()` when `data` is non-null and `dump()` never
yields the empty string, so the `!body.empty()` test is `data.isSome`. -/
def buildWire (cfg : ClientConfig) (auth : Option Headers) (req : HttpRequestConfig) :
    WireRequest :=
  { url := cfg.baseUrl ++ req.url
    method := req.method
    headerList :=
      auth.getD [] ++ req.headers ++
        (if req.data.isSome && (listLookup req.headers "Content-Type").isNone then
          [("Content-Type", "application/json")]
        else [])
    data := req.data }

/-- Outcome of `curl_easy_perform` plus the response data collected by
the write/header callbacks: either a status line with body and headers,
or a pre-response transport failure with a curl error string. -/
inductive CurlResult where
  | curlOk (status : Int) (body : String) (respHeaders : Headers)
  | curlFail (err : String)

/-- Embedding of the outcome handling of `HttpClient::request`
(HttpClient.cpp:204-227): a transport failure raises
`std::runtime_error("CURL request failed: " + ...)`, otherwise the
response object is returned with the received status code, whatever it
is; no status classification happens. -/
def requestOutcome : CurlResult → Except String HttpResponse
  | .curlFail e => .error ("CURL request failed: " ++ e)
  | .curlOk s b h => .ok { statusCode := s, body := b, headers := h, errorMessage := "" }

/-- Embedding of `HttpClient::request` (HttpClient.cpp:117-227) end to
end, with the transport (libcurl) passed as a function from the built
wire request to its result. -/
def HttpClient.request (cfg : ClientConfig) (auth : Option Headers)
    (req : HttpRequestConfig) (transport : WireRequest → CurlResult) :
    Except String HttpResponse :=
  requestOutcome (transport (buildWire cfg auth req))

/-- Status-dispatch outcome of a resource-client call; body decoding is
abstracted as `parseBody`. -/
inductive WfOutcome where
  | notFoundError (msg : String)
  | httpError (msg : String) (status : Int)
  | parseBody
deriving Repr, DecidableEq

/-- Embedding of the status handling of `WorkflowClient::getById`
(WorkflowClient.cpp:41-54): the client itself compares the raw status
code against 404 and 200 and builds the errors. -/
def WorkflowClient.getByIdDispatch (id : String) (status : Int) : WfOutcome :=
  if status = 404 then .notFoundError ("Workflow not found: " ++ id)
  else if status ≠ 200 then .httpError "Failed to get workflow" status
  else .parseBody

/-- Object field access, the embedding of `json.at(key)` lookup
(returns `none` where `at` would throw `out_of_range`). -/
def jAt : JVal → String → Option JVal
  | .jobj fields, k => listLookup fields k
  | _, _ => none

/-- Embedding of `get_to` into an integer field: any non-number json
throws, i.e. yields `none`. -/
def jGetInt : Option JVal → Option Int
  | some (.jint n) => some n
  | _ => none

/-- Embedding of `get_to` into a bool field. -/
def jGetBool : Option JVal → Option Bool
  | some (.jbool b) => some b
  | _ => none

/-- Embedding of `get_to` into a vector field: elements are kept as raw
json values (the element type is generic in the source). -/
def jGetArr : Option JVal → Option (List JVal)
  | some (.jarr xs) => some xs
  | _ => none

/-- Embedding of non-const `json[key]`: a missing key reads as null. -/
def jIndex (j : JVal) (k : String) : JVal :=
  (jAt j k).getD .jnull

/-- Embedding of range-for over a json value: arrays iterate their
elements, null iterates nothing, objects iterate their values, a
primitive yields itself once. -/
def jIterElems : JVal → List JVal
  | .jarr xs => xs
  | .jnull => []
  | .jobj fields => fields.map Prod.snd
  | v => [v]

/-- Embedding of `json.value(key, default)` for a bool: missing key
gives the default, a present non-bool throws. -/
def jValueBool (j : JVal) (k : String) (dflt : Bool) : Option Bool :=
  match jAt j k with
  | none => some dflt
  | some (.jbool b) => some b
  | some _ => none

/-- Embedding of `PageResult<T>` (CommonTypes.h:58-68) with the element
type generic, kept as raw json values. -/
structure PageResultJ where
  content : List JVal
  pageNumber : Int
  pageSize : Int
  totalElements : Int
  totalPages : Int
  first : Bool
  last : Bool
  empty : Bool

/-- Embedding of the `from_json` template for `PageResult`
(CommonTypes.h:242-252): reads only the canonical keys `pageNumber` /
`pageSize` via `at`, so a missing key is a failure. -/
def pageResult_from_json (j : JVal) : Option PageResultJ := do
  let content ← jGetArr (jAt j "content")
  let pageNumber ← jGetInt (jAt j "pageNumber")
  let pageSize ← jGetInt (jAt j "pageSize")
  let totalElements ← jGetInt (jAt j "totalElements")
  let totalPages ← jGetInt (jAt j "totalPages")
  let first ← jGetBool (jAt j "first")
  let last ← jGetBool (jAt j "last")
  let em ← jGetBool (jAt j "empty")
  pure ⟨content, pageNumber, pageSize, totalElements, totalPages, first, last, em⟩

/-- Embedding of the `to_json` template for `PageResult`
(CommonTypes.h:229-240): emits the canonical key names. -/
def pageResult_to_json (p : PageResultJ) : JVal :=
  .jobj [("content", .jarr p.content), ("pageNumber", .jint p.pageNumber),
         ("pageSize", .jint p.pageSize), ("totalElements", .jint p.totalElements),
         ("totalPages", .jint p.totalPages), ("first", .jbool p.first),
         ("last", .jbool p.last), ("empty", .jbool p.empty)]

/-- Embedding of the page decoding in `WorkflowClient::list`
(WorkflowClient.cpp:23-36): reads only the wire keys `size` / `number`
through `operator[]` plus `get`, so a missing key reads null and the
`get` throws. -/
def workflowList_decode (j : JVal) : Option PageResultJ := do
  let content := jIterElems (jIndex j "content")
  let totalElements ← jGetInt (some (jIndex j "totalElements"))
  let totalPages ← jGetInt (some (jIndex j "totalPages"))
  let pageSize ← jGetInt (some (jIndex j "size"))
  let pageNumber ← jGetInt (some (jIndex j "number"))
  let first ← jGetBool (some (jIndex j "first"))
  let last ← jGetBool (some (jIndex j "last"))
  let em ← jValueBool j "empty" false
  pure ⟨content, pageNumber, pageSize, totalElements, totalPages, first, last, em⟩

/-- Retry policy fields of `ClientConfig` as consumed by the retry
loop (`enableRetry`, `maxRetries`, `retryDelay`). -/
structure RetryPolicy where
  enableRetry : Bool
  maxRetries : Nat
  retryDelay : Nat

/-- One classified attempt outcome: whether it is retryable (per the
spec taxonomy) plus an abstract payload identifying the outcome. -/
structure AttemptOutcome where
  retryable : Bool
  payload : Int
deriving Repr, DecidableEq

/-- Modelled from the spec: `HttpClient::executeWithRetry` is declared
(HttpClient.h:74) but has no definition anywhere in the repository, and
spec 9(c) records that the retry mechanism is referenced in types but
not implemented; this definition follows spec 4.4's retry loop.
`attempts n` is the classified outcome of physical attempt `n`
(1-based); the result is the backoff sleeps performed (in ms), the
number of attempts made, and the surfaced outcome.  After a retryable
outcome with budget left the engine sleeps `retryDelay * 2^(attempt-1)`
ms and retries. -/
def retryLoop (cfg : RetryPolicy) (attempts : Nat → AttemptOutcome) :
    Nat → Nat → List Nat × Nat × AttemptOutcome
  | attempt, 0 => ([], 1, attempts attempt)
  | attempt, remaining + 1 =>
    let o := attempts attempt
    if cfg.enableRetry && o.retryable then
      let r := retryLoop cfg attempts (attempt + 1) remaining
      (cfg.retryDelay * 2 ^ (attempt - 1) :: r.1, r.2.1 + 1, r.2.2)
    else
      ([], 1, o)

/-- Modelled from the spec: the whole call sequence of spec 4.4 starts
at attempt 1 with `max_retries` additional attempts allowed. -/
def executeWithRetry (cfg : RetryPolicy) (attempts : Nat → AttemptOutcome) :
    List Nat × Nat × AttemptOutcome :=
  retryLoop cfg attempts 1 cfg.maxRetries

theorem retryLoop_spec (cfg : RetryPolicy) (f : Nat → AttemptOutcome)
    (henable : cfg.enableRetry = true) :
    ∀ (rem a : Nat),
      1 ≤ (retryLoop cfg f a rem).2.1 ∧
      (retryLoop cfg f a rem).2.1 ≤ rem + 1 ∧
      (retryLoop cfg f a rem).2.2 = f (a + (retryLoop cfg f a rem).2.1 - 1) ∧
      (retryLoop cfg f a rem).1.length = (retryLoop cfg f a rem).2.1 - 1 ∧
      (∀ i < (retryLoop cfg f a rem).2.1 - 1,
        (retryLoop cfg f a rem).1[i]? = some (cfg.retryDelay * 2 ^ (a + i - 1)) ∧
        (f (a + i)).retryable = true) ∧
      ((retryLoop cfg f a rem).2.1 ≤ rem →
        (f (a + (retryLoop cfg f a rem).2.1 - 1)).retryable = false) := by
  intro rem
  induction rem with
  | zero =>
    intro a
    simp only [retryLoop]
    refine ⟨le_refl 1, le_refl 1, by simp, rfl, by omega, by omega⟩
  | succ rem ih =>
    intro a
    by_cases hr : (f a).retryable = true
    · have hcond : (cfg.enableRetry && (f a).retryable) = true := by
        simp [henable, hr]
      obtain ⟨ih1, ih2, ih3, ih4, ih5, ih6⟩ := ih (a + 1)
      simp only [retryLoop, hcond, if_true]
      refine ⟨by omega, by omega, ?_, ?_, ?_, ?_⟩
      · rw [ih3]
        congr 1
        omega
      · simp only [List.length_cons]
        omega
      · intro i hi
        match i with
        | 0 =>
          refine ⟨?_, ?_⟩
          · simp only [List.getElem?_cons_zero, Option.some.injEq]
            have e0 : a + 0 - 1 = a - 1 := by omega
            rw [e0]
          · simpa using hr
        | j + 1 =>
          have hj : j < (retryLoop cfg f (a + 1) rem).2.1 - 1 := by omega
          obtain ⟨hget, hretry⟩ := ih5 j hj
          refine ⟨?_, ?_⟩
          · simp only [List.getElem?_cons_succ]
            have he : a + 1 + j - 1 = a + (j + 1) - 1 := by omega
            rw [← he]
            exact hget
          · have he : a + 1 + j = a + (j + 1) := by omega
            rw [← he]
            exact hretry
      · intro hle
        have hle' : (retryLoop cfg f (a + 1) rem).2.1 ≤ rem := by omega
        have := ih6 hle'
        have harith : a + 1 + (retryLoop cfg f (a + 1) rem).2.1 - 1
            = a + ((retryLoop cfg f (a + 1) rem).2.1 + 1) - 1 := by omega
        rw [← harith]
        exact this
    · have hcond : (cfg.enableRetry && (f a).retryable) = false := by
        rw [henable]
        simpa using hr
      simp only [retryLoop, hcond, Bool.false_eq_true, if_false]
      refine ⟨le_refl 1, by omega, by simp, rfl, by omega, ?_⟩
      intro _
      simp only [Nat.add_sub_cancel]
      simpa using hr

/-- C1: with retry enabled, a call surfaces only the outcome of its last
attempt, the attempt count lies in `[1, 1 + max_retries]`, the i-th
backoff sleep (taken after attempt `i+1`, which was retryable) is
`retry_delay * 2^((i+1)-1)` ms, and the loop stops short of the budget
only on a non-retryable outcome.  (The retry loop is modelled from the
spec, `executeWithRetry` having no definition in the repository.) -/
theorem executeWithRetry_bound_backoff (cfg : RetryPolicy) (f : Nat → AttemptOutcome)
    (henable : cfg.enableRetry = true) :
    1 ≤ (executeWithRetry cfg f).2.1 ∧
    (executeWithRetry cfg f).2.1 ≤ 1 + cfg.maxRetries ∧
    (executeWithRetry cfg f).2.2 = f (executeWithRetry cfg f).2.1 ∧
    (executeWithRetry cfg f).1.length = (executeWithRetry cfg f).2.1 - 1 ∧
    (∀ i < (executeWithRetry cfg f).2.1 - 1,
      (executeWithRetry cfg f).1[i]? = some (cfg.retryDelay * 2 ^ i) ∧
      (f (i + 1)).retryable = true) ∧
    ((executeWithRetry cfg f).2.1 < 1 + cfg.maxRetries →
      (f (executeWithRetry cfg f).2.1).retryable = false) := by
  obtain ⟨h1, h2, h3, h4, h5, h6⟩ := retryLoop_spec cfg f henable cfg.maxRetries 1
  simp only [executeWithRetry]
  refine ⟨h1, by omega, ?_, h4, ?_, ?_⟩
  · have e1 : 1 + (retryLoop cfg f 1 cfg.maxRetries).2.1 - 1
        = (retryLoop cfg f 1 cfg.maxRetries).2.1 := by omega
    rw [h3, e1]
  · intro i hi
    obtain ⟨hget, hretry⟩ := h5 i hi
    have e2 : 1 + i - 1 = i := by omega
    have e3 : 1 + i = i + 1 := by omega
    rw [e2] at hget
    rw [e3] at hretry
    exact ⟨hget, hretry⟩
  · intro hlt
    have := h6 (by omega)
    have e1 : 1 + (retryLoop cfg f 1 cfg.maxRetries).2.1 - 1
        = (retryLoop cfg f 1 cfg.maxRetries).2.1 := by omega
    rw [e1] at this
    exact this

/-- A staged transport for the retry-loop witness: the first two
attempts are retryable, the third is not. -/
def retryDemoAttempts : Nat → AttemptOutcome :=
  fun n => { retryable := decide (n < 3), payload := Int.ofNat n }

/-- A retry policy with retry enabled, two extra attempts and a 1000 ms
base delay, for the retry-loop witness. -/
def retryDemoPolicy : RetryPolicy :=
  { enableRetry := true, maxRetries := 2, retryDelay := 1000 }

theorem executeWithRetry_bound_backoff_witness :
    retryDemoPolicy.enableRetry = true ∧
    (1 ≤ (executeWithRetry retryDemoPolicy retryDemoAttempts).2.1 ∧
      (executeWithRetry retryDemoPolicy retryDemoAttempts).2.1
        ≤ 1 + retryDemoPolicy.maxRetries ∧
      (executeWithRetry retryDemoPolicy retryDemoAttempts).2.2
        = retryDemoAttempts (executeWithRetry retryDemoPolicy retryDemoAttempts).2.1 ∧
      (executeWithRetry retryDemoPolicy retryDemoAttempts).1.length
        = (executeWithRetry retryDemoPolicy retryDemoAttempts).2.1 - 1 ∧
      (∀ i < (executeWithRetry retryDemoPolicy retryDemoAttempts).2.1 - 1,
        (executeWithRetry retryDemoPolicy retryDemoAttempts).1[i]?
          = some (retryDemoPolicy.retryDelay * 2 ^ i) ∧
        (retryDemoAttempts (i + 1)).retryable = true) ∧
      ((executeWithRetry retryDemoPolicy retryDemoAttempts).2.1
          < 1 + retryDemoPolicy.maxRetries →
        (retryDemoAttempts
          (executeWithRetry retryDemoPolicy retryDemoAttempts).2.1).retryable = false)) :=
  ⟨rfl, executeWithRetry_bound_backoff retryDemoPolicy retryDemoAttempts rfl⟩

/-- C10: each of setTimeout, setVerifySSL and setProxy rewrites exactly
its own configuration field; every other configuration field and the
auth-provider reference are unchanged. -/
theorem setters_frame (s : HttpClientState) (t : Int) (v : Bool) (p : String) :
    ((s.setTimeout t).config.timeout = t ∧
      (s.setTimeout t).config.baseUrl = s.config.baseUrl ∧
      (s.setTimeout t).config.enableLogging = s.config.enableLogging ∧
      (s.setTimeout t).config.enableRetry = s.config.enableRetry ∧
      (s.setTimeout t).config.maxRetries = s.config.maxRetries ∧
      (s.setTimeout t).config.retryDelay = s.config.retryDelay ∧
      (s.setTimeout t).config.version = s.config.version ∧
      (s.setTimeout t).config.defaultHeaders = s.config.defaultHeaders ∧
      (s.setTimeout t).config.userAgent = s.config.userAgent ∧
      (s.setTimeout t).config.verifySSL = s.config.verifySSL ∧
      (s.setTimeout t).config.proxyUrl = s.config.proxyUrl ∧
      (s.setTimeout t).config.connectionPoolSize = s.config.connectionPoolSize ∧
      (s.setTimeout t).authProvider = s.authProvider) ∧
    ((s.setVerifySSL v).config.verifySSL = v ∧
      (s.setVerifySSL v).config.baseUrl = s.config.baseUrl ∧
      (s.setVerifySSL v).config.timeout = s.config.timeout ∧
      (s.setVerifySSL v).config.enableLogging = s.config.enableLogging ∧
      (s.setVerifySSL v).config.enableRetry = s.config.enableRetry ∧
      (s.setVerifySSL v).config.maxRetries = s.config.maxRetries ∧
      (s.setVerifySSL v).config.retryDelay = s.config.retryDelay ∧
      (s.setVerifySSL v).config.version = s.config.version ∧
      (s.setVerifySSL v).config.defaultHeaders = s.config.defaultHeaders ∧
      (s.setVerifySSL v).config.userAgent = s.config.userAgent ∧
      (s.setVerifySSL v).config.proxyUrl = s.config.proxyUrl ∧
      (s.setVerifySSL v).config.connectionPoolSize = s.config.connectionPoolSize ∧
      (s.setVerifySSL v).authProvider = s.authProvider) ∧
    ((s.setProxy p).config.proxyUrl = p ∧
      (s.setProxy p).config.baseUrl = s.config.baseUrl ∧
      (s.setProxy p).config.timeout = s.config.timeout ∧
      (s.setProxy p).config.enableLogging = s.config.enableLogging ∧
      (s.setProxy p).config.enableRetry = s.config.enableRetry ∧
      (s.setProxy p).config.maxRetries = s.config.maxRetries ∧
      (s.setProxy p).config.retryDelay = s.config.retryDelay ∧
      (s.setProxy p).config.version = s.config.version ∧
      (s.setProxy p).config.defaultHeaders = s.config.defaultHeaders ∧
      (s.setProxy p).config.userAgent = s.config.userAgent ∧
      (s.setProxy p).config.verifySSL = s.config.verifySSL ∧
      (s.setProxy p).config.connectionPoolSize = s.config.connectionPoolSize ∧
      (s.setProxy p).authProvider = s.authProvider) := by
  simp [HttpClientState.setTimeout, HttpClientState.setVerifySSL, HttpClientState.setProxy]

/-- C7 counterexample: the Bearer provider with an empty token is
invalid, yet getAuthHeaders is not the empty map: it still emits one
Authorization header with value "Bearer ". -/
theorem invalidProvider_counterexample :
    bearerIsValid "" = false ∧
    bearerGetAuthHeaders "" = [("Authorization", "Bearer ")] ∧
    bearerGetAuthHeaders "" ≠ ([] : Headers) := by
  refine ⟨rfl, rfl, by decide⟩

/-- C7 amended: every built-in provider in an invalid state reports
isValid() = false, but getAuthHeaders() is unconditional: Bearer, ApiKey
and Basic still return their single header built from the empty fields;
only the Custom provider with an empty map returns an empty header set. -/
theorem invalidProviders_amended (t k hn : String) (u p : List Nat) (hs : Headers)
    (ht : t = "") (hk : k = "") (hu : u = []) (hhs : hs = []) :
    bearerIsValid t = false ∧
    bearerGetAuthHeaders t = [("Authorization", "Bearer " ++ t)] ∧
    bearerGetAuthHeaders t ≠ [] ∧
    apiKeyIsValid k hn = false ∧
    apiKeyGetAuthHeaders k hn = [(hn, k)] ∧
    apiKeyGetAuthHeaders k hn ≠ [] ∧
    basicIsValid u p = false ∧
    basicGetAuthHeaders u p
      = [("Authorization", "Basic ".toList ++ base64_encode (u ++ 58 :: p))] ∧
    basicGetAuthHeaders u p ≠ [] ∧
    customIsValid hs = false ∧
    customGetAuthHeaders hs = [] := by
  subst ht hk hu hhs
  refine ⟨rfl, rfl, by simp [bearerGetAuthHeaders], rfl, rfl,
    by simp [apiKeyGetAuthHeaders], rfl, rfl, by simp [basicGetAuthHeaders], rfl, rfl⟩

theorem invalidProviders_amended_witness :
    ("" : String) = "" ∧ ([] : List Nat) = [] ∧ ([] : Headers) = [] ∧
    (bearerIsValid "" = false ∧
      bearerGetAuthHeaders "" = [("Authorization", "Bearer " ++ "")] ∧
      bearerGetAuthHeaders "" ≠ [] ∧
      apiKeyIsValid "" "X-API-Key" = false ∧
      apiKeyGetAuthHeaders "" "X-API-Key" = [("X-API-Key", "")] ∧
      apiKeyGetAuthHeaders "" "X-API-Key" ≠ [] ∧
      basicIsValid [] [112] = false ∧
      basicGetAuthHeaders [] [112]
        = [("Authorization", "Basic ".toList ++ base64_encode ([] ++ 58 :: [112]))] ∧
      basicGetAuthHeaders [] [112] ≠ [] ∧
      customIsValid [] = false ∧
      customGetAuthHeaders [] = []) :=
  ⟨rfl, rfl, rfl,
    invalidProviders_amended "" "" "X-API-Key" [] [112] [] rfl rfl rfl rfl⟩

/-- C8: for non-empty credentials, BasicAuthProvider emits exactly one
header, Authorization, valued "Basic " followed by the standard-alphabet
base64 of the byte string `username : password` (58 is ':'), and the
encoded text is '='-padded to a length that is a multiple of 4. -/
theorem basicAuth_roundTrip (u p : List Nat) (hu : u ≠ []) (hp : p ≠ [])
    (hub : ∀ x ∈ u, x < 256) (hpb : ∀ x ∈ p, x < 256) :
    basicGetAuthHeaders u p
      = [("Authorization", "Basic ".toList ++ specB64 (u ++ 58 :: p))] ∧
    (base64_encode (u ++ 58 :: p)).length % 4 = 0 := by
  have hb : ∀ x ∈ u ++ 58 :: p, x < 256 := by
    intro x hx
    rcases List.mem_append.mp hx with h | h
    · exact hub x h
    · rcases List.mem_cons.mp h with h | h
      · omega
      · exact hpb x h
  have he := base64_encode_eq_specB64 _ hb
  constructor
  · simp only [basicGetAuthHeaders, he]
  · rw [he]
    exact specB64_len _

theorem basicAuth_roundTrip_witness :
    ([117] : List Nat) ≠ [] ∧ ([112] : List Nat) ≠ [] ∧
    (basicGetAuthHeaders [117] [112]
        = [("Authorization", "Basic ".toList ++ specB64 ([117] ++ 58 :: [112]))] ∧
      (base64_encode ([117] ++ 58 :: [112])).length % 4 = 0) :=
  ⟨by decide, by decide,
    basicAuth_roundTrip [117] [112] (by decide) (by decide) (by decide) (by decide)⟩

/-- C9 counterexample: with a = "x/" the base already ends in '/', and
joinPath(a + "/", b) keeps both slashes, so it differs from
joinPath(a, b); with b = "/y" the path already starts with '/', and
joinPath(a, "/" + b) strips only one slash, so it differs from
joinPath(a, b). -/
theorem joinPath_counterexample :
    UrlUtils.joinPath (['x', '/'] ++ ['/']) ['y'] ≠ UrlUtils.joinPath ['x', '/'] ['y'] ∧
    UrlUtils.joinPath ['x'] ('/' :: ['/', 'y']) ≠ UrlUtils.joinPath ['x'] ['/', 'y'] := by
  decide

/-- C9 amended: joinPath(a + "/", b) = joinPath(a, b) holds for every
path b when a is non-empty and does not already end in '/' (first
conjunct, with q an arbitrary path); joinPath(a, b) = joinPath(a, "/" +
b) holds for every base a when b does not already start with '/'
(second conjunct, with b an arbitrary base); when base and path each
satisfy their condition the result is a + "/" + b with exactly one '/'
between the two fragments; and when the base already ends in '/' and
the path already starts with '/' the extra slashes are kept:
joinPath(a + "/", "//" + b) = a + "//" + b. -/
theorem joinPath_amended (base path q b : List Char) (h1 : base ≠ [])
    (h2 : base.getLast? ≠ some '/') (h3 : path.head? ≠ some '/') :
    UrlUtils.joinPath (base ++ ['/']) q = UrlUtils.joinPath base q ∧
    UrlUtils.joinPath b ('/' :: path) = UrlUtils.joinPath b path ∧
    UrlUtils.joinPath base path = base ++ '/' :: path ∧
    UrlUtils.joinPath (base ++ ['/']) ('/' :: '/' :: path)
      = base ++ ('/' :: '/' :: path) := by
  have hlast : (base ++ ['/']).getLast? = some '/' := by
    simp [List.getLast?_concat]
  refine ⟨?_, ?_, ?_, ?_⟩
  · simp [UrlUtils.joinPath, h1, h2, hlast]
  · simp [UrlUtils.joinPath, h3]
  · simp only [UrlUtils.joinPath]
    rw [if_pos ⟨h1, h2⟩, if_neg h3]
    simp
  · simp [UrlUtils.joinPath, hlast]

theorem joinPath_amended_witness :
    (['a'] : List Char) ≠ [] ∧ (['a'] : List Char).getLast? ≠ some '/' ∧
    (['b'] : List Char).head? ≠ some '/' ∧
    (UrlUtils.joinPath (['a'] ++ ['/']) ['/', 'y'] = UrlUtils.joinPath ['a'] ['/', 'y'] ∧
      UrlUtils.joinPath ['x', '/'] ('/' :: ['b']) = UrlUtils.joinPath ['x', '/'] ['b'] ∧
      UrlUtils.joinPath ['a'] ['b'] = ['a'] ++ '/' :: ['b'] ∧
      UrlUtils.joinPath (['a'] ++ ['/']) ('/' :: '/' :: ['b'])
        = ['a'] ++ ('/' :: '/' :: ['b'])) :=
  ⟨by decide, by decide, by decide,
    joinPath_amended ['a'] ['b'] ['/', 'y'] ['x', '/'] (by decide) (by decide) (by decide)⟩

/-- A plain configuration for concrete engine evaluations. -/
def demoConfig : ClientConfig :=
  { baseUrl := "http://h/api", timeout := 30000, enableLogging := false,
    enableRetry := true, maxRetries := 3, retryDelay := 1000, version := "1.0.0",
    defaultHeaders := [], userAgent := "DataAPI-CPP-SDK/1.0.0", verifySSL := true,
    proxyUrl := "", connectionPoolSize := 10 }

/-- The same configuration with a trailing slash on the base URL. -/
def slashConfig : ClientConfig :=
  { demoConfig with baseUrl := "http://h/api/" }

/-- The same configuration with one default header set. -/
def traceConfig : ClientConfig :=
  { demoConfig with defaultHeaders := [("X-Trace", "a")] }

/-- A bodiless GET request for `/version`. -/
def versionRequest : HttpRequestConfig :=
  { method := .GET, url := "/version", headers := [], params := [],
    data := none, timeout := 30000 }

/-- A bodiless GET request for `/v` with one query parameter. -/
def paramsRequest : HttpRequestConfig :=
  { method := .GET, url := "/v", headers := [], params := [("a", "b")],
    data := none, timeout := 30000 }

/-- A bodiless GET request for `/x` with no headers. -/
def plainRequest : HttpRequestConfig :=
  { method := .GET, url := "/x", headers := [], params := [],
    data := none, timeout := 30000 }

/-- A bodiless GET request for a workflow that does not exist. -/
def wfRequest : HttpRequestConfig :=
  { method := .GET, url := "/workflows/does-not-exist", headers := [], params := [],
    data := none, timeout := 30000 }

/-- The final URL as the spec states it: joinPath of base and path plus,
for a non-empty query map, '?' and the encoded query string. -/
def spec_finalUrl (cfg : ClientConfig) (req : HttpRequestConfig) : List Char :=
  UrlUtils.joinPath cfg.baseUrl.toList req.url.toList ++
    (if req.params = [] then [] else '?' :: UrlUtils.buildQueryString req.params)

/-- C2 counterexample: on a received 404 status the engine's outcome is
still a plain Response (not a typed error), although 404 is not 2xx; and
a pre-response transport failure surfaces as the unclassified exception
"CURL request failed: ..." rather than as a status-0 transport failure
record. -/
theorem request_classification_counterexample :
    HttpClient.request demoConfig none versionRequest (fun _ => .curlOk 404 "" [])
      = .ok { statusCode := 404, body := "", headers := [], errorMessage := "" } ∧
    ({ statusCode := 404, body := "", headers := [], errorMessage := "" }
      : HttpResponse).isSuccess = false ∧
    HttpClient.request demoConfig none versionRequest (fun _ => .curlFail "dns failure")
      = .error ("CURL request failed: " ++ "dns failure") := by
  refine ⟨rfl, rfl, rfl⟩

/-- C2 amended: the engine returns a Response carrying the received
status for every completed exchange, 2xx or not (status classification
is left to the resource clients), and surfaces a pre-response transport
failure as an unclassified runtime exception with the curl error text,
not as a status-0 transport failure. -/
theorem request_outcome_amended (cfg : ClientConfig) (auth : Option Headers)
    (req : HttpRequestConfig) (s : Int) (b : String) (hs : Headers) (e : String) :
    HttpClient.request cfg auth req (fun _ => .curlOk s b hs)
      = .ok { statusCode := s, body := b, headers := hs, errorMessage := "" } ∧
    HttpClient.request cfg auth req (fun _ => .curlFail e)
      = .error ("CURL request failed: " ++ e) :=
  ⟨rfl, rfl⟩

/-- C3 counterexample: with base URL "http://h/api/" and path "/v" the
engine sends "http://h/api//v" (plain concatenation, double slash kept)
and drops the query map entirely, while the spec's formula yields
"http://h/api/v?a=b". -/
theorem finalUrl_counterexample :
    (buildWire slashConfig none paramsRequest).url = "http://h/api//v" ∧
    spec_finalUrl slashConfig paramsRequest = "http://h/api/v?a=b".toList ∧
    (buildWire slashConfig none paramsRequest).url.toList
      ≠ spec_finalUrl slashConfig paramsRequest := by
  refine ⟨by decide, by decide, by decide⟩

/-- C3 amended: the final URL is the verbatim concatenation
`config.baseUrl + request.path` with no slash normalisation, and the
query-parameter map has no effect on the wire request at all (parameters
passed to get() never appear in the URL). -/
theorem finalUrl_amended (cfg : ClientConfig) (auth : Option Headers)
    (req : HttpRequestConfig) (ps : List (String × String)) :
    (buildWire cfg auth req).url = cfg.baseUrl ++ req.url ∧
    buildWire cfg auth { req with params := ps } = buildWire cfg auth req :=
  ⟨rfl, rfl⟩

/-- C4 counterexample: config.defaultHeaders sets X-Trace (source 2 of
the claimed precedence chain) and no later source sets it, yet the
assembled header list is empty: default headers and the config
User-Agent never reach the wire request. -/
theorem headerAssembly_counterexample :
    listLookup traceConfig.defaultHeaders "X-Trace" = some "a" ∧
    listLookup (buildWire traceConfig none plainRequest).headerList "X-Trace" = none ∧
    (buildWire traceConfig none plainRequest).headerList = [] := by
  refine ⟨by decide, by decide, by decide⟩

/-- C4 amended: the assembled header list consists of exactly the auth
provider headers, then the caller headers, then (when a body is present
and the caller headers have no exact-case Content-Type key)
Content-Type: application/json; the config User-Agent and
defaultHeaders are never added, and equal keys from different sources
are appended rather than overridden. -/
theorem headerAssembly_amended (cfg : ClientConfig) (auth : Option Headers)
    (req : HttpRequestConfig) (k v : String) :
    (k, v) ∈ (buildWire cfg auth req).headerList ↔
      ((k, v) ∈ auth.getD [] ∨ (k, v) ∈ req.headers ∨
        (k = "Content-Type" ∧ v = "application/json" ∧
          (req.data.isSome && (listLookup req.headers "Content-Type").isNone) = true)) := by
  by_cases h : (req.data.isSome && (listLookup req.headers "Content-Type").isNone) = true
  · simp only [buildWire, h, if_true, List.mem_append, List.mem_singleton,
      Prod.mk.injEq, eq_self_iff_true, and_true, or_assoc]
  · simp only [buildWire, h, if_false, List.mem_append, List.append_nil,
      Bool.false_eq_true, and_false, or_false, List.not_mem_nil, or_assoc]

/-- C6 counterexample: the engine hands a raw 404 Response to the
resource client (no NotFound translation happened in the engine), and it
is WorkflowClient::getById's own status dispatch that builds the
NotFound error from the status code. -/
theorem notFound_translation_counterexample :
    HttpClient.request demoConfig none wfRequest (fun _ => .curlOk 404 "" [])
      = .ok { statusCode := 404, body := "", headers := [], errorMessage := "" } ∧
    WorkflowClient.getByIdDispatch "does-not-exist" 404
      = .notFoundError "Workflow not found: does-not-exist" := by
  refine ⟨rfl, by decide⟩

/-- C6 amended: the engine returns every 404 response unchanged as a
plain Response, and the 404-to-NotFound translation is performed by the
resource client itself, which inspects response.statusCode and raises
the NotFound error. -/
theorem notFound_translation_amended (id : String) (r : HttpResponse)
    (h : r.statusCode = 404) :
    WorkflowClient.getByIdDispatch id r.statusCode
      = .notFoundError ("Workflow not found: " ++ id) ∧
    requestOutcome (.curlOk r.statusCode r.body r.headers)
      = .ok { statusCode := r.statusCode, body := r.body, headers := r.headers,
              errorMessage := "" } := by
  refine ⟨?_, rfl⟩
  rw [h]
  simp [WorkflowClient.getByIdDispatch]

/-- A 404 response with empty body and headers. -/
def resp404 : HttpResponse :=
  { statusCode := 404, body := "", headers := [], errorMessage := "" }

theorem notFound_translation_amended_witness :
    resp404.statusCode = 404 ∧
    (WorkflowClient.getByIdDispatch "w1" resp404.statusCode
        = .notFoundError ("Workflow not found: " ++ "w1") ∧
      requestOutcome (.curlOk resp404.statusCode resp404.body resp404.headers)
        = .ok { statusCode := resp404.statusCode, body := resp404.body,
                headers := resp404.headers, errorMessage := "" }) :=
  ⟨rfl, notFound_translation_amended "w1" resp404 rfl⟩

/-- A sample decoded page for the serialisation direction. -/
def pageDemo : PageResultJ :=
  ⟨[], 0, 10, 0, 1, true, true, true⟩

/-- A page body spelled with the wire names number/size. -/
def wirePageBody : JVal :=
  .jobj [("content", .jarr []), ("totalElements", .jint 0), ("totalPages", .jint 1),
         ("size", .jint 10), ("number", .jint 0), ("first", .jbool true),
         ("last", .jbool true), ("empty", .jbool true)]

/-- The same page body spelled with the canonical names
pageNumber/pageSize. -/
def canonicalPageBody : JVal :=
  .jobj [("content", .jarr []), ("pageNumber", .jint 0), ("pageSize", .jint 10),
         ("totalElements", .jint 0), ("totalPages", .jint 1), ("first", .jbool true),
         ("last", .jbool true), ("empty", .jbool true)]

/-- C5: serialising emits the canonical names (that half of the claim
holds), but neither reader accepts both spellings: PageResult's
from_json fails on the wire-named body and accepts only the canonical
one, while WorkflowClient::list fails on the canonical body and accepts
only the wire-named one — the two readers in the repository are
mutually inconsistent. -/
theorem pageResult_spellings_bug :
    (pageResult_from_json wirePageBody).isNone = true ∧
    (pageResult_from_json canonicalPageBody).isSome = true ∧
    (workflowList_decode canonicalPageBody).isNone = true ∧
    (workflowList_decode wirePageBody).isSome = true ∧
    jAt (pageResult_to_json pageDemo) "pageNumber" = some (.jint 0) ∧
    jAt (pageResult_to_json pageDemo) "pageSize" = some (.jint 10) ∧
    jAt (pageResult_to_json pageDemo) "number" = none ∧
    jAt (pageResult_to_json pageDemo) "size" = none := by
  refine ⟨rfl, rfl, rfl, rfl, rfl, rfl, rfl, rfl⟩
